import Mathlib

/-!
Verification of the sandbox lifecycle subsystem of the matrx orchestrator.

The definitions below are a shallow embedding of the Python source:
`orchestrator/models.py` (data model), `orchestrator/store.py` (the
pluggable registry: in-memory and Postgres-backed), the lifecycle manager
`orchestrator/sandbox_manager.py` (create, readiness polling, destroy,
heartbeat), and `orchestrator/middleware/auth.py` (API-key middleware).
Effectful code is embedded by explicit state passing: store mutation is a
function from store to store, driver (Docker) behaviour is an explicit
input describing what the runtime did, and timestamps are parameters.
-/

/-- The SandboxStatus enum of models.py. -/
inductive SandboxStatus
  | creating
  | starting
  | ready
  | running
  | shutting_down
  | stopped
  | failed
  | expired
  deriving DecidableEq, Repr

/-- The string value each status is stored under (the Python str-enum value). -/
def SandboxStatus.value : SandboxStatus → String
  | .creating => "creating"
  | .starting => "starting"
  | .ready => "ready"
  | .running => "running"
  | .shutting_down => "shutting_down"
  | .stopped => "stopped"
  | .failed => "failed"
  | .expired => "expired"

/-- Inverse of SandboxStatus.value: the SandboxStatus constructor call on a string. -/
def SandboxStatus.ofString : String → Option SandboxStatus
  | "creating" => some .creating
  | "starting" => some .starting
  | "ready" => some .ready
  | "running" => some .running
  | "shutting_down" => some .shutting_down
  | "stopped" => some .stopped
  | "failed" => some .failed
  | "expired" => some .expired
  | _ => none

/-- A status is terminal when it is stopped, failed or expired (spec glossary). -/
def SandboxStatus.isTerminal : SandboxStatus → Bool
  | .stopped => true
  | .failed => true
  | .expired => true
  | _ => false

/-- Terminal test on the textual status stored in a database row. -/
def isTerminalStr (s : String) : Bool :=
  s == "stopped" || s == "failed" || s == "expired"

/-- The SandboxResponse pydantic model (models.py): the record the manager and
the in-memory store work with.  The config dict is embedded as an association
list of string pairs; timestamps are integers. -/
structure SandboxResponse where
  sandbox_id : String
  user_id : String
  status : SandboxStatus
  container_id : Option String := none
  created_at : Int
  hot_path : String := "/home/agent"
  cold_path : String := "/data/cold"
  config : List (String × String) := []
  ssh_port : Option Nat := none
  ttl_seconds : Int := 7200
  deriving DecidableEq, Repr

/-- Python dict assignment on an association list keyed by strings: replace the
(unique) binding when the key is present, append otherwise. -/
def dictInsert (l : List (String × SandboxResponse)) (k : String) (v : SandboxResponse) :
    List (String × SandboxResponse) :=
  match l with
  | [] => [(k, v)]
  | p :: t => if p.1 = k then (k, v) :: t else p :: dictInsert t k v

/-- InMemorySandboxStore (store.py): a dict from sandbox_id to record. -/
structure InMemorySandboxStore where
  sandboxes : List (String × SandboxResponse)
  deriving DecidableEq, Repr

/-- store.py InMemorySandboxStore.save: dict assignment keyed by the record's id. -/
def InMemorySandboxStore.save (st : InMemorySandboxStore) (s : SandboxResponse) :
    InMemorySandboxStore :=
  ⟨dictInsert st.sandboxes s.sandbox_id s⟩

/-- store.py InMemorySandboxStore.get: dict lookup. -/
def InMemorySandboxStore.get (st : InMemorySandboxStore) (id : String) :
    Option SandboxResponse :=
  (st.sandboxes.find? (fun p => p.1 == id)).map Prod.snd

/-- store.py InMemorySandboxStore.update_status: set the status of the record
stored under the given key, re-storing it under that key; false when absent. -/
def InMemorySandboxStore.update_status (st : InMemorySandboxStore) (id : String)
    (status : SandboxStatus) : InMemorySandboxStore × Bool :=
  match st.get id with
  | none => (st, false)
  | some s => (⟨dictInsert st.sandboxes id { s with status := status }⟩, true)

/-- store.py SandboxStore.update_heartbeat default, inherited by the in-memory
store: it delegates to update_status with status RUNNING. -/
def InMemorySandboxStore.update_heartbeat (st : InMemorySandboxStore) (id : String) :
    InMemorySandboxStore × Bool :=
  st.update_status id .running

/-- store.py InMemorySandboxStore.mark_stopped: sets status STOPPED and
re-stores the record; the reason argument is not recorded (the in-memory
record has no stop_reason or stopped_at field). -/
def InMemorySandboxStore.mark_stopped (st : InMemorySandboxStore) (id : String)
    (reason : String) : InMemorySandboxStore × Bool :=
  match st.get id with
  | none => (st, false)
  | some s => (⟨dictInsert st.sandboxes id { s with status := .stopped }⟩, true)

/-- One observation of the container made by a tick of the readiness poll of
sandbox_manager.py _wait_for_ready: the container state was "exited", the
readiness probe ran and returned an exit code, or the driver raised NotFound
or APIError. -/
inductive PollObs
  | exited
  | probe (exit_code : Int)
  | notFoundError
  | apiError
  deriving DecidableEq, Repr

/-- An observation on which the poll loop continues to the next tick: a probe
whose exit code is nonzero. -/
def PollObs.continues : PollObs → Bool
  | .probe e => e != 0
  | _ => false

/-- The loop body of sandbox_manager.py _wait_for_ready.  elapsed advances by
the fixed interval of 2 seconds per tick and the loop runs while
elapsed < timeout; obs gives the observation made at each elapsed time.  The
structural fuel argument only bounds recursion depth: waitForReady passes
fuel = timeout, which the 2-second stride can never exhaust before the
elapsed < timeout guard stops the loop. -/
def waitForReadyAux (s : SandboxResponse) (obs : Nat → PollObs) (timeout : Nat) :
    Nat → Nat → SandboxResponse
  | 0, _ => { s with status := .failed }
  | fuel + 1, elapsed =>
    if elapsed < timeout then
      match obs elapsed with
      | PollObs.exited => { s with status := .failed }
      | PollObs.notFoundError => { s with status := .failed }
      | PollObs.apiError => { s with status := .failed }
      | PollObs.probe e =>
        if e = 0 then { s with status := .ready }
        else waitForReadyAux s obs timeout fuel (elapsed + 2)
    else { s with status := .failed }

/-- sandbox_manager.py _wait_for_ready with its default timeout of 120 seconds
and interval of 2 seconds, starting from elapsed = 0. -/
def waitForReady (s : SandboxResponse) (obs : Nat → PollObs) : SandboxResponse :=
  waitForReadyAux s obs 120 120 0

/-- A driver call made by the manager that this development tracks: creating
the container, and force-removing it. -/
inductive DriverAction
  | runContainer (container_id : String)
  | forceRemove (container_id : String)
  deriving DecidableEq, Repr

/-- Whether a driver action is a force-remove. -/
def DriverAction.isForceRemove : DriverAction → Bool
  | .forceRemove _ => true
  | _ => false

/-- What the Docker driver did after containers.run succeeded: either a later
step (container.reload / port read) raised before the readiness wait, or
everything up to the readiness wait completed, with obs giving the poll
observations. -/
inductive AfterRun
  | raised
  | completes (obs : Nat → PollObs)

/-- Outcome of the containers.run call in create_sandbox: it raised, or it
returned a container with the given id and (optional) published SSH host
port, followed by the given after-run behaviour. -/
inductive RunOutcome
  | raised
  | ok (container_id : String) (port : Option Nat) (after : AfterRun)

/-- Result of create_sandbox: the returned record, or the RuntimeError raised
for the given sandbox id. -/
inductive CreateResult
  | ok (s : SandboxResponse)
  | error (sandbox_id : String)
  deriving DecidableEq, Repr

/-- sandbox_manager.py create_sandbox over the in-memory store.  The generated
sandbox_id and the wall-clock created_at are parameters; the Docker driver's
behaviour is the beh input.  Returns the final store, the result, and the
list of driver actions issued. -/
def create_sandbox (store : InMemorySandboxStore) (user_id : String)
    (config : List (String × String)) (sandbox_id : String) (created_at : Int)
    (beh : RunOutcome) : InMemorySandboxStore × CreateResult × List DriverAction :=
  let sandbox : SandboxResponse :=
    { sandbox_id := sandbox_id, user_id := user_id, status := .creating,
      created_at := created_at, config := config }
  let store1 := store.save sandbox
  match beh with
  | .raised =>
    (store1.save { sandbox with status := .failed }, .error sandbox_id, [])
  | .ok cid _port .raised =>
    (store1.save { sandbox with container_id := some cid, status := .failed },
     .error sandbox_id, [.runContainer cid])
  | .ok cid port (.completes obs) =>
    let started :=
      { sandbox with container_id := some cid, status := .starting, ssh_port := port }
    let store2 := store1.save started
    let final := waitForReady started obs
    (store2.save final, .ok final, [.runContainer cid])

/-- Outcome of the driver calls (containers.get, stop/kill, remove) in
destroy_sandbox: all succeeded, NotFound was raised, or APIError was raised. -/
inductive DestroyDriverOutcome
  | ok
  | notFound
  | apiError
  deriving DecidableEq, Repr

/-- sandbox_manager.py destroy_sandbox over the in-memory store: absent record
returns false; otherwise status is set to SHUTTING_DOWN, the driver is asked
to stop/kill and remove the container, then on success or NotFound the record
is marked stopped and true is returned, while on APIError the record is
marked FAILED and false is returned. -/
def destroy_sandbox (store : InMemorySandboxStore) (sandbox_id : String)
    (_graceful : Bool) (reason : String) (drv : DestroyDriverOutcome) :
    InMemorySandboxStore × Bool :=
  match store.get sandbox_id with
  | none => (store, false)
  | some _ =>
    let store1 := (store.update_status sandbox_id .shutting_down).1
    match drv with
    | .ok => ((store1.mark_stopped sandbox_id reason).1, true)
    | .notFound => ((store1.mark_stopped sandbox_id reason).1, true)
    | .apiError => ((store1.update_status sandbox_id .failed).1, false)

/-- sandbox_manager.py heartbeat: false when the record does not exist,
otherwise delegate to the store's update_heartbeat and return true. -/
def heartbeat (store : InMemorySandboxStore) (sandbox_id : String) :
    InMemorySandboxStore × Bool :=
  match store.get sandbox_id with
  | none => (store, false)
  | some _ => ((store.update_heartbeat sandbox_id).1, true)

/-- A row of the sandbox_instances table used by PostgresSandboxStore
(store.py).  Columns follow the SQL in store.py: the status is stored as
text, and the table has stopped_at, stop_reason, last_heartbeat_at and
expires_at columns that the SandboxResponse model does not carry.  There is
no ssh_port column. -/
structure SandboxRow where
  sandbox_id : String
  user_id : String
  status : String
  container_id : Option String := none
  created_at : Int
  hot_path : String := "/home/agent"
  cold_path : String := "/data/cold"
  config : List (String × String) := []
  ttl_seconds : Int := 7200
  stopped_at : Option Int := none
  stop_reason : Option String := none
  last_heartbeat_at : Option Int := none
  expires_at : Option Int := none
  updated_at : Option Int := none
  deriving DecidableEq, Repr

/-- The table contents of the Postgres-backed store: a list of rows. -/
abbrev SandboxDB := List SandboxRow

namespace PostgresSandboxStore

/-- store.py PostgresSandboxStore.save: INSERT of the columns (user_id,
sandbox_id, status, container_id, created_at, hot_path, cold_path, config,
ttl_seconds), ON CONFLICT (sandbox_id) updating only status, container_id,
config and updated_at.  Note the INSERT has no ssh_port column.  On the
insert branch, expires_at is filled as created_at + ttl_seconds.
Modelled from the spec: the expires_at value on insert comes from a database
trigger that is not in the source tree; per the spec it computes
expires_at = created_at + ttl_seconds. -/
def save (db : SandboxDB) (now : Int) (s : SandboxResponse) : SandboxDB :=
  if db.any (fun r => r.sandbox_id == s.sandbox_id) then
    db.map (fun r =>
      if r.sandbox_id == s.sandbox_id then
        { r with status := s.status.value, container_id := s.container_id,
                 config := s.config, updated_at := some now }
      else r)
  else
    db ++ [{ sandbox_id := s.sandbox_id, user_id := s.user_id,
             status := s.status.value, container_id := s.container_id,
             created_at := s.created_at, hot_path := s.hot_path,
             cold_path := s.cold_path, config := s.config,
             ttl_seconds := s.ttl_seconds,
             expires_at := some (s.created_at + s.ttl_seconds) }]

end PostgresSandboxStore

/-- store.py _row_to_sandbox: convert a table row back to a SandboxResponse.
SandboxStatus(row status) raises on an unknown value, embedded as none.
No ssh_port is read from the row, so the model's default (none) applies. -/
def rowToSandbox (r : SandboxRow) : Option SandboxResponse :=
  (SandboxStatus.ofString r.status).map fun st =>
    { sandbox_id := r.sandbox_id, user_id := r.user_id, status := st,
      container_id := r.container_id, created_at := r.created_at,
      hot_path := r.hot_path, cold_path := r.cold_path, config := r.config,
      ttl_seconds := r.ttl_seconds }

namespace PostgresSandboxStore

/-- store.py PostgresSandboxStore.get: SELECT by sandbox_id, converting the
row when found. -/
def get (db : SandboxDB) (id : String) : Option SandboxResponse :=
  match db.find? (fun r => r.sandbox_id == id) with
  | none => none
  | some r => rowToSandbox r

/-- store.py PostgresSandboxStore.update_status: set status (and stopped_at
when the new status is STOPPED) on the matching row; true when exactly one
row was updated. -/
def update_status (db : SandboxDB) (now : Int) (id : String)
    (status : SandboxStatus) : SandboxDB × Bool :=
  let db2 := db.map (fun r =>
    if r.sandbox_id == id then
      if status = .stopped then
        { r with status := status.value, stopped_at := some now }
      else
        { r with status := status.value }
    else r)
  (db2, db.countP (fun r => r.sandbox_id == id) = 1)

/-- store.py PostgresSandboxStore.update_heartbeat: SET last_heartbeat_at on
the matching row, and nothing else; true when exactly one row was updated. -/
def update_heartbeat (db : SandboxDB) (now : Int) (id : String) :
    SandboxDB × Bool :=
  (db.map (fun r =>
     if r.sandbox_id == id then { r with last_heartbeat_at := some now } else r),
   db.countP (fun r => r.sandbox_id == id) = 1)

/-- store.py PostgresSandboxStore.mark_stopped: SET status stopped,
stopped_at = NOW(), stop_reason = reason on the matching row. -/
def mark_stopped (db : SandboxDB) (now : Int) (id : String) (reason : String) :
    SandboxDB × Bool :=
  (db.map (fun r =>
     if r.sandbox_id == id then
       { r with status := "stopped", stopped_at := some now,
                stop_reason := some reason }
     else r),
   db.countP (fun r => r.sandbox_id == id) = 1)

/-- The WHERE clause of store.py PostgresSandboxStore.expire_stale: status IN
(ready, running) AND expires_at IS NOT NULL AND expires_at < NOW(). -/
def expireSel (now : Int) (r : SandboxRow) : Bool :=
  (r.status == "ready" || r.status == "running") &&
    (match r.expires_at with
     | some e => decide (e < now)
     | none => false)

/-- store.py PostgresSandboxStore.expire_stale: UPDATE the selected rows to
status expired with stopped_at = NOW() and stop_reason expired, RETURNING
their sandbox_ids. -/
def expire_stale (db : SandboxDB) (now : Int) : SandboxDB × List String :=
  (db.map (fun r =>
     if expireSel now r then
       { r with status := "expired", stopped_at := some now,
                stop_reason := some "expired" }
     else r),
   (db.filter (expireSel now)).map (fun r => r.sandbox_id))

end PostgresSandboxStore

/-- The relevant configuration of middleware/auth.py: the configured API key
and the name of the API-key header (settings.api_key, settings.api_key_header). -/
structure AuthSettings where
  api_key : String
  api_key_header : String
  deriving DecidableEq, Repr

/-- An HTTP request as the auth middleware sees it: its path and headers. -/
structure HttpRequest where
  path : String
  headers : List (String × String)
  deriving DecidableEq, Repr

/-- request.headers.get: lookup of a header value by name. -/
def headerGet (hs : List (String × String)) (name : String) : Option String :=
  (hs.find? (fun p => p.1 == name)).map Prod.snd

/-- The paths exempt from API-key authentication (auth.py _EXEMPT_PATHS). -/
def EXEMPT_PATHS : List String := ["/health", "/docs", "/openapi.json", "/redoc"]

/-- auth.py _extract_api_key: the X-API-Key header when present and non-empty
(Python truthiness), else the Bearer token stripped from the Authorization
header when that header has the Bearer scheme. -/
def extract_api_key (cfg : AuthSettings) (req : HttpRequest) : Option String :=
  let fallback :=
    let auth := (headerGet req.headers "Authorization").getD ""
    if auth.startsWith "Bearer " then some (auth.drop 7).trim else none
  match headerGet req.headers cfg.api_key_header with
  | some v => if v ≠ "" then some v else fallback
  | none => fallback

/-- The decision of the middleware: pass the request through, or reject with
a 401 or a 403 JSON response. -/
inductive AuthDecision
  | forward
  | unauthorized401
  | forbidden403
  deriving DecidableEq, Repr

/-- auth.py APIKeyMiddleware.dispatch: allow everything when no API key is
configured (Python falsiness of the empty string); allow exempt paths and
the root path; 401 on a missing/empty provided key; 403 when the provided
key differs from the configured key (hmac.compare_digest is equality). -/
def dispatch (cfg : AuthSettings) (req : HttpRequest) : AuthDecision :=
  if cfg.api_key = "" then .forward
  else if EXEMPT_PATHS.contains req.path then .forward
  else if req.path = "/" then .forward
  else
    match extract_api_key cfg req with
    | none => .unauthorized401
    | some k =>
      if k = "" then .unauthorized401
      else if k = cfg.api_key then .forward
      else .forbidden403

/-- Lookup after dict assignment at the same key finds the assigned binding. -/
theorem dictInsert_find (l : List (String × SandboxResponse)) (k : String)
    (v : SandboxResponse) :
    (dictInsert l k v).find? (fun p => p.1 == k) = some (k, v) := by
  induction l with
  | nil => simp [dictInsert]
  | cons p t ih =>
    by_cases h : p.1 = k
    · simp [dictInsert, h]
    · simp [dictInsert, h, ih]

/-- Store lookup after a raw dict assignment at the same key. -/
theorem get_dictInsert (l : List (String × SandboxResponse)) (k : String)
    (v : SandboxResponse) :
    InMemorySandboxStore.get ⟨dictInsert l k v⟩ k = some v := by
  simp [InMemorySandboxStore.get, dictInsert_find]

/-- get after save at the saved record's id returns that record. -/
theorem get_save (st : InMemorySandboxStore) (s : SandboxResponse) :
    (st.save s).get s.sandbox_id = some s :=
  get_dictInsert st.sandboxes s.sandbox_id s

/-- get after save, phrased for any key equal to the record's id. -/
theorem get_save_of_id (st : InMemorySandboxStore) (s : SandboxResponse) (id : String)
    (h : s.sandbox_id = id) : (st.save s).get id = some s :=
  h ▸ get_save st s

/-- Every run of the readiness loop changes only the status, and only to
ready or to failed. -/
theorem waitForReadyAux_cases (s : SandboxResponse) (obs : Nat → PollObs) (t : Nat) :
    ∀ fuel elapsed, waitForReadyAux s obs t fuel elapsed = { s with status := .ready } ∨
      waitForReadyAux s obs t fuel elapsed = { s with status := .failed } := by
  intro fuel
  induction fuel with
  | zero => intro elapsed; right; rfl
  | succ n ih =>
    intro elapsed
    by_cases h : elapsed < t
    · cases hobs : obs elapsed with
      | exited => right; simp [waitForReadyAux, h, hobs]
      | notFoundError => right; simp [waitForReadyAux, h, hobs]
      | apiError => right; simp [waitForReadyAux, h, hobs]
      | probe e =>
        by_cases he : e = 0
        · left; simp [waitForReadyAux, h, hobs, he]
        · simpa [waitForReadyAux, h, hobs, he] using ih (elapsed + 2)
    · right; simp [waitForReadyAux, h]

/-- The readiness wait yields a record in status ready or failed, equal to its
input in every other field. -/
theorem waitForReady_shape (s : SandboxResponse) (obs : Nat → PollObs) :
    ((waitForReady s obs).status = .ready ∨ (waitForReady s obs).status = .failed) ∧
      (waitForReady s obs).sandbox_id = s.sandbox_id := by
  rcases waitForReadyAux_cases s obs 120 120 0 with h | h <;>
    simp [waitForReady, h]

/-- One tick of the readiness loop on a continuing observation advances
elapsed by the 2-second interval. -/
theorem waitForReadyAux_step (s : SandboxResponse) (obs : Nat → PollObs) (t fuel elapsed : Nat)
    (h : elapsed < t) (hc : (obs elapsed).continues = true) :
    waitForReadyAux s obs t (fuel + 1) elapsed = waitForReadyAux s obs t fuel (elapsed + 2) := by
  cases hobs : obs elapsed with
  | probe e =>
    have he : ¬ e = 0 := by simpa [PollObs.continues, hobs] using hc
    simp [waitForReadyAux, h, hobs, he]
  | exited => simp [PollObs.continues, hobs] at hc
  | notFoundError => simp [PollObs.continues, hobs] at hc
  | apiError => simp [PollObs.continues, hobs] at hc

/-- Running the readiness loop past n continuing ticks of 2 seconds each. -/
theorem waitForReadyAux_skip (s : SandboxResponse) (obs : Nat → PollObs) (t : Nat) :
    ∀ n fuel elapsed, n ≤ fuel → elapsed + 2 * n ≤ t →
      (∀ k, k < n → (obs (elapsed + 2 * k)).continues = true) →
      waitForReadyAux s obs t fuel elapsed =
        waitForReadyAux s obs t (fuel - n) (elapsed + 2 * n) := by
  intro n
  induction n with
  | zero => intro fuel elapsed _ _ _; simp
  | succ m ih =>
    intro fuel elapsed hn hb hc
    obtain ⟨f, rfl⟩ : ∃ f, fuel = f + 1 := ⟨fuel - 1, by omega⟩
    have h0 : elapsed < t := by omega
    have hc0 : (obs elapsed).continues = true := by
      have := hc 0 (by omega)
      simpa using this
    rw [waitForReadyAux_step s obs t f elapsed h0 hc0]
    have hrec := ih f (elapsed + 2) (by omega) (by omega)
      (fun k hk => by
        have h2 : elapsed + 2 + 2 * k = elapsed + 2 * (k + 1) := by omega
        rw [h2]
        exact hc (k + 1) (by omega))
    rw [hrec, (by omega : f + 1 - (m + 1) = f - m),
      (by omega : elapsed + 2 + 2 * m = elapsed + 2 * (m + 1))]

/-- C3: the readiness poll runs at a fixed 2-second interval (ticks at elapsed
times 2k) with a hard deadline of 120 seconds (60 ticks); at any tick reached
after only continuing probes, a container state of exited yields failed, a
readiness-probe exit code of 0 yields ready, a driver NotFound or APIError
yields failed, and 60 continuing ticks exhaust the deadline and yield failed. -/
theorem readiness_poll_spec (s : SandboxResponse) (obs : Nat → PollObs) (n : Nat)
    (hn : n < 60) (hprev : ∀ k, k < n → (obs (2 * k)).continues = true) :
    (obs (2 * n) = .exited → waitForReady s obs = { s with status := .failed }) ∧
    (obs (2 * n) = .probe 0 → waitForReady s obs = { s with status := .ready }) ∧
    (obs (2 * n) = .notFoundError → waitForReady s obs = { s with status := .failed }) ∧
    (obs (2 * n) = .apiError → waitForReady s obs = { s with status := .failed }) ∧
    ((∀ k, k < 60 → (obs (2 * k)).continues = true) →
       waitForReady s obs = { s with status := .failed }) := by
  have hskip : waitForReady s obs = waitForReadyAux s obs 120 (120 - n) (2 * n) := by
    have h := waitForReadyAux_skip s obs 120 n 120 0 (by omega) (by omega)
      (fun k hk => by simpa using hprev k hk)
    simpa using h
  have hfuel : 120 - n = (119 - n) + 1 := by omega
  have hlt : 2 * n < 120 := by omega
  refine ⟨?_, ?_, ?_, ?_, ?_⟩
  · intro hobs
    rw [hskip, hfuel]
    simp [waitForReadyAux, hlt, hobs]
  · intro hobs
    rw [hskip, hfuel]
    simp [waitForReadyAux, hlt, hobs]
  · intro hobs
    rw [hskip, hfuel]
    simp [waitForReadyAux, hlt, hobs]
  · intro hobs
    rw [hskip, hfuel]
    simp [waitForReadyAux, hlt, hobs]
  · intro hall
    have hskip60 : waitForReady s obs = waitForReadyAux s obs 120 (120 - 60) (2 * 60) := by
      have h := waitForReadyAux_skip s obs 120 60 120 0 (by omega) (by omega)
        (fun k hk => by simpa using hall k hk)
      simpa using h
    rw [hskip60, (by omega : 120 - 60 = 59 + 1)]
    simp [waitForReadyAux]

/-- Poll observations used by the C3 witness: two continuing probes, then a
ready probe. -/
def c3obs : Nat → PollObs := fun k => if k < 4 then .probe 1 else .probe 0

/-- Record used by the C3 witness. -/
def c3rec : SandboxResponse :=
  { sandbox_id := "sbx-00c3000000ab", user_id := "11111111-1111-1111-1111-111111111111",
    status := .starting, created_at := 0 }

/-- Witness for C3: at the concrete observation stream c3obs, the first two
ticks continue and the tick at 4 seconds probes 0, so the poll returns ready. -/
theorem readiness_poll_spec_witness :
    (2 < 60 ∧ (∀ k, k < 2 → (c3obs (2 * k)).continues = true) ∧ c3obs (2 * 2) = .probe 0) ∧
      waitForReady c3rec c3obs = { c3rec with status := .ready } :=
  ⟨⟨by decide, by decide, by decide⟩,
    (readiness_poll_spec c3rec c3obs 2 (by decide) (by decide)).2.1 (by decide)⟩

/-- C2: for every starting store, user, config, generated id and driver
behaviour, when create_sandbox returns normally the returned record has
status ready or failed and the registry holds that same record under its id;
when it raises, the registry holds a record with status failed and the
RuntimeError for that sandbox id is surfaced. -/
theorem create_sandbox_postcondition (store : InMemorySandboxStore) (user_id : String)
    (config : List (String × String)) (sandbox_id : String) (created_at : Int)
    (beh : RunOutcome) :
    (∃ s, (create_sandbox store user_id config sandbox_id created_at beh).2.1 = .ok s ∧
        (s.status = .ready ∨ s.status = .failed) ∧
        (create_sandbox store user_id config sandbox_id created_at beh).1.get sandbox_id
          = some s) ∨
    ((create_sandbox store user_id config sandbox_id created_at beh).2.1
        = .error sandbox_id ∧
     ∃ s, (create_sandbox store user_id config sandbox_id created_at beh).1.get sandbox_id
        = some s ∧ s.status = .failed) := by
  cases beh with
  | raised =>
    right
    exact ⟨rfl, _, get_save_of_id _ _ _ rfl, rfl⟩
  | ok cid port after =>
    cases after with
    | raised =>
      right
      exact ⟨rfl, _, get_save_of_id _ _ _ rfl, rfl⟩
    | completes obs =>
      left
      refine ⟨_, rfl, (waitForReady_shape _ obs).1, ?_⟩
      exact get_save_of_id _ _ _ ((waitForReady_shape _ obs).2.trans rfl)

/-- C4 counterexample: a concrete create in which the container was created
(the run action was issued with container id c4cafe) and the port read then
raised; the surfaced result is the error, yet the issued driver actions
contain no force-remove of the container. -/
theorem create_no_force_remove_cex :
    (create_sandbox ⟨[]⟩ "11111111-1111-1111-1111-111111111111" [] "sbx-00c4000000ab" 0
        (.ok "c4cafe" (some 32768) .raised)).2.1 = .error "sbx-00c4000000ab" ∧
    (create_sandbox ⟨[]⟩ "11111111-1111-1111-1111-111111111111" [] "sbx-00c4000000ab" 0
        (.ok "c4cafe" (some 32768) .raised)).2.2 = [DriverAction.runContainer "c4cafe"] ∧
    (create_sandbox ⟨[]⟩ "11111111-1111-1111-1111-111111111111" [] "sbx-00c4000000ab" 0
        (.ok "c4cafe" (some 32768) .raised)).2.2.all (fun a => !a.isForceRemove) = true := by
  decide

/-- C4 (amended): when the container was created but a later step of
create_sandbox fails, the manager persists the record as failed and surfaces
the error, but issues no force-remove of the container (cleanup is left to
the reconciler). -/
theorem create_failure_leaves_container (store : InMemorySandboxStore) (user_id : String)
    (config : List (String × String)) (sandbox_id : String) (created_at : Int)
    (cid : String) (port : Option Nat) :
    (create_sandbox store user_id config sandbox_id created_at
        (.ok cid port .raised)).2.1 = .error sandbox_id ∧
    (create_sandbox store user_id config sandbox_id created_at
        (.ok cid port .raised)).1.get sandbox_id =
      some { sandbox_id := sandbox_id, user_id := user_id, status := .failed,
             container_id := some cid, created_at := created_at, config := config } ∧
    (create_sandbox store user_id config sandbox_id created_at
        (.ok cid port .raised)).2.2.all (fun a => !a.isForceRemove) = true := by
  exact ⟨rfl, get_save_of_id _ _ _ rfl, rfl⟩

/-- Record used by the C1 counterexample: an expired (terminal) sandbox. -/
def c1xRec : SandboxResponse :=
  { sandbox_id := "sbx-00c1000000ax", user_id := "22222222-2222-2222-2222-222222222222",
    status := .expired, created_at := 0 }

/-- C1 counterexample: heartbeat on a terminal (expired) record does not
return a domain error — it returns true — and it changes the record: the
status moves to running. -/
theorem terminal_mutation_cex :
    SandboxStatus.isTerminal c1xRec.status = true ∧
    (heartbeat ⟨[("sbx-00c1000000ax", c1xRec)]⟩ "sbx-00c1000000ax").2 = true ∧
    (heartbeat ⟨[("sbx-00c1000000ax", c1xRec)]⟩ "sbx-00c1000000ax").1.get "sbx-00c1000000ax"
      = some { c1xRec with status := .running } ∧
    ({ c1xRec with status := .running } : SandboxResponse) ≠ c1xRec := by
  decide

/-- C1 (amended): no lifecycle operation guards terminal status — for any
record present in the registry, terminal or not, heartbeat reports success
and moves the record to running (through the store's default
update_heartbeat), and destroy re-marks it shutting_down and then stopped,
reporting success, when the driver reports the container absent. -/
theorem lifecycle_terminal_not_guarded (st : InMemorySandboxStore) (id reason : String)
    (g : Bool) (s : SandboxResponse) (hget : st.get id = some s)
    (hterm : s.status.isTerminal = true) :
    (heartbeat st id).2 = true ∧
    (heartbeat st id).1.get id = some { s with status := .running } ∧
    (destroy_sandbox st id g reason .notFound).2 = true ∧
    (destroy_sandbox st id g reason .notFound).1.get id
      = some { s with status := .stopped } := by
  refine ⟨?_, ?_, ?_, ?_⟩
  · simp [heartbeat, hget]
  · simp [heartbeat, hget, InMemorySandboxStore.update_heartbeat,
      InMemorySandboxStore.update_status, get_dictInsert]
  · simp [destroy_sandbox, hget, InMemorySandboxStore.update_status]
  · simp [destroy_sandbox, hget, InMemorySandboxStore.update_status,
      InMemorySandboxStore.mark_stopped, get_dictInsert]

/-- Record used by the C1 witness: a failed (terminal) sandbox. -/
def c1wRec : SandboxResponse :=
  { sandbox_id := "sbx-00c1000000ab", user_id := "22222222-2222-2222-2222-222222222222",
    status := .failed, created_at := 0 }

/-- Store used by the C1 witness. -/
def c1wStore : InMemorySandboxStore := ⟨[("sbx-00c1000000ab", c1wRec)]⟩

/-- Witness for the amended C1 at a concrete store holding a failed record. -/
theorem lifecycle_terminal_not_guarded_witness :
    (c1wStore.get "sbx-00c1000000ab" = some c1wRec ∧
      c1wRec.status.isTerminal = true) ∧
    ((heartbeat c1wStore "sbx-00c1000000ab").2 = true ∧
     (heartbeat c1wStore "sbx-00c1000000ab").1.get "sbx-00c1000000ab"
        = some { c1wRec with status := .running } ∧
     (destroy_sandbox c1wStore "sbx-00c1000000ab" true "user_requested" .notFound).2 = true ∧
     (destroy_sandbox c1wStore "sbx-00c1000000ab" true "user_requested" .notFound).1.get
        "sbx-00c1000000ab" = some { c1wRec with status := .stopped }) :=
  ⟨⟨by decide, by decide⟩,
    lifecycle_terminal_not_guarded c1wStore "sbx-00c1000000ab" "user_requested" true c1wRec
      (by decide) (by decide)⟩

/-- C5: for any existing record, destroy against a container absent from the
runtime (driver not-found) returns true and leaves the registry record
stopped, while a driver API error leaves the record failed and returns
false. -/
theorem destroy_driver_outcomes (st : InMemorySandboxStore) (id reason : String)
    (g : Bool) (s : SandboxResponse) (hget : st.get id = some s) :
    ((destroy_sandbox st id g reason .notFound).2 = true ∧
     (destroy_sandbox st id g reason .notFound).1.get id
        = some { s with status := .stopped }) ∧
    ((destroy_sandbox st id g reason .apiError).2 = false ∧
     (destroy_sandbox st id g reason .apiError).1.get id
        = some { s with status := .failed }) := by
  refine ⟨⟨?_, ?_⟩, ?_, ?_⟩ <;>
    simp [destroy_sandbox, hget, InMemorySandboxStore.update_status,
      InMemorySandboxStore.mark_stopped, get_dictInsert]

/-- Record used by the C5 witness: a ready sandbox. -/
def c5wRec : SandboxResponse :=
  { sandbox_id := "sbx-00c5000000ab", user_id := "33333333-3333-3333-3333-333333333333",
    status := .ready, container_id := some "c5cafe", created_at := 0 }

/-- Store used by the C5 witness. -/
def c5wStore : InMemorySandboxStore := ⟨[("sbx-00c5000000ab", c5wRec)]⟩

/-- Witness for C5 at a concrete store holding a ready record. -/
theorem destroy_driver_outcomes_witness :
    c5wStore.get "sbx-00c5000000ab" = some c5wRec ∧
    (((destroy_sandbox c5wStore "sbx-00c5000000ab" true "user_requested" .notFound).2 = true ∧
      (destroy_sandbox c5wStore "sbx-00c5000000ab" true "user_requested" .notFound).1.get
        "sbx-00c5000000ab" = some { c5wRec with status := .stopped }) ∧
     ((destroy_sandbox c5wStore "sbx-00c5000000ab" true "user_requested" .apiError).2 = false ∧
      (destroy_sandbox c5wStore "sbx-00c5000000ab" true "user_requested" .apiError).1.get
        "sbx-00c5000000ab" = some { c5wRec with status := .failed })) :=
  ⟨by decide,
    destroy_driver_outcomes c5wStore "sbx-00c5000000ab" "user_requested" true c5wRec (by decide)⟩

/-- Record used by the C6 counterexample: a ready sandbox. -/
def c6xRec : SandboxResponse :=
  { sandbox_id := "sbx-00c6000000ax", user_id := "44444444-4444-4444-4444-444444444444",
    status := .ready, created_at := 0 }

/-- C6 counterexample: with the in-memory store, heartbeat on an existing
ready record returns true but changes the record's status to running, so it
does not hold that heartbeat never changes status. -/
theorem heartbeat_status_change_cex :
    (heartbeat ⟨[("sbx-00c6000000ax", c6xRec)]⟩ "sbx-00c6000000ax").2 = true ∧
    (heartbeat ⟨[("sbx-00c6000000ax", c6xRec)]⟩ "sbx-00c6000000ax").1.get "sbx-00c6000000ax"
      = some { c6xRec with status := .running } ∧
    SandboxStatus.running ≠ c6xRec.status := by
  decide

/-- C6 (amended): heartbeat returns false and changes nothing when the record
does not exist, and returns true when it does; the Postgres store's
update_heartbeat touches only last_heartbeat_at of the matching row and
leaves other rows intact, but the in-memory store (via the base default)
instead sets the record's status to running. -/
theorem heartbeat_amended (st : InMemorySandboxStore) (id : String) (s : SandboxResponse)
    (db : SandboxDB) (now : Int) (r : SandboxRow)
    (hget : st.get id = some s) (hr : r ∈ db) :
    ((heartbeat st id).2 = true ∧
     (heartbeat st id).1.get id = some { s with status := .running }) ∧
    (∀ st2 id2, InMemorySandboxStore.get st2 id2 = none → heartbeat st2 id2 = (st2, false)) ∧
    ((r.sandbox_id = id →
        { r with last_heartbeat_at := some now }
          ∈ (PostgresSandboxStore.update_heartbeat db now id).1) ∧
     (r.sandbox_id ≠ id → r ∈ (PostgresSandboxStore.update_heartbeat db now id).1)) := by
  refine ⟨⟨?_, ?_⟩, ?_, ?_, ?_⟩
  · simp [heartbeat, hget]
  · simp [heartbeat, hget, InMemorySandboxStore.update_heartbeat,
      InMemorySandboxStore.update_status, get_dictInsert]
  · intro st2 id2 h2
    simp [heartbeat, h2]
  · intro hid
    have hmem := List.mem_map_of_mem
      (fun r' : SandboxRow =>
        if r'.sandbox_id == id then { r' with last_heartbeat_at := some now } else r') hr
    simpa [PostgresSandboxStore.update_heartbeat, hid] using hmem
  · intro hid
    have hmem := List.mem_map_of_mem
      (fun r' : SandboxRow =>
        if r'.sandbox_id == id then { r' with last_heartbeat_at := some now } else r') hr
    simpa [PostgresSandboxStore.update_heartbeat, hid] using hmem

/-- Record used by the C6 witness. -/
def c6wRec : SandboxResponse :=
  { sandbox_id := "sbx-00c6000000ab", user_id := "44444444-4444-4444-4444-444444444444",
    status := .ready, created_at := 0 }

/-- Row used by the C6 witness. -/
def c6wRow : SandboxRow :=
  { sandbox_id := "sbx-00c6000000ab", user_id := "44444444-4444-4444-4444-444444444444",
    status := "ready", created_at := 0 }

/-- Witness for the amended C6 at a concrete store and a concrete table. -/
theorem heartbeat_amended_witness :
    (InMemorySandboxStore.get ⟨[("sbx-00c6000000ab", c6wRec)]⟩ "sbx-00c6000000ab"
        = some c6wRec ∧ c6wRow ∈ [c6wRow]) ∧
    (((heartbeat ⟨[("sbx-00c6000000ab", c6wRec)]⟩ "sbx-00c6000000ab").2 = true ∧
      (heartbeat ⟨[("sbx-00c6000000ab", c6wRec)]⟩ "sbx-00c6000000ab").1.get "sbx-00c6000000ab"
        = some { c6wRec with status := .running }) ∧
     (∀ st2 id2, InMemorySandboxStore.get st2 id2 = none → heartbeat st2 id2 = (st2, false)) ∧
     ((c6wRow.sandbox_id = "sbx-00c6000000ab" →
         { c6wRow with last_heartbeat_at := some 9 }
           ∈ (PostgresSandboxStore.update_heartbeat [c6wRow] 9 "sbx-00c6000000ab").1) ∧
      (c6wRow.sandbox_id ≠ "sbx-00c6000000ab" →
         c6wRow ∈ (PostgresSandboxStore.update_heartbeat [c6wRow] 9 "sbx-00c6000000ab").1))) :=
  ⟨⟨by decide, by decide⟩,
    heartbeat_amended ⟨[("sbx-00c6000000ab", c6wRec)]⟩ "sbx-00c6000000ab" c6wRec
      [c6wRow] 9 c6wRow (by decide) (by decide)⟩

/-- Row used by the C7 counterexample: failed, with no stopped_at. -/
def c7xRowA : SandboxRow :=
  { sandbox_id := "sbx-00c7000000aa", user_id := "u7", status := "failed", created_at := 0 }

/-- Second row used by the C7 counterexample: the one being marked stopped. -/
def c7xRowB : SandboxRow :=
  { sandbox_id := "sbx-00c7000000ab", user_id := "u7", status := "ready", created_at := 0 }

/-- Record used by the C7 counterexample against the in-memory store. -/
def c7xRec : SandboxResponse :=
  { sandbox_id := "sbx-00c7000000am", user_id := "u7", status := .ready, created_at := 0 }

/-- C7 counterexample: after a Postgres mark_stopped, a failed row still has a
terminal status with a null stopped_at, so stopped_at non-null iff terminal
fails; and the in-memory mark_stopped yields the same store for two
different reasons, so it does not record the given stop reason (its records
have no stopped_at or stop_reason at all). -/
theorem mark_stopped_cex :
    (PostgresSandboxStore.mark_stopped [c7xRowA, c7xRowB] 5 "sbx-00c7000000ab"
        "user_requested").1
      = [c7xRowA,
         { c7xRowB with
            status := "stopped", stopped_at := some 5,
            stop_reason := some "user_requested" }] ∧
    isTerminalStr c7xRowA.status = true ∧ c7xRowA.stopped_at = none ∧
    (InMemorySandboxStore.mark_stopped ⟨[("sbx-00c7000000am", c7xRec)]⟩
        "sbx-00c7000000am" "user_requested").1
      = (InMemorySandboxStore.mark_stopped ⟨[("sbx-00c7000000am", c7xRec)]⟩
        "sbx-00c7000000am" "another_reason").1 := by
  decide

/-- C7 (amended): the Postgres mark_stopped sets status stopped, stopped_at to
now and stop_reason to the given reason on the matching row and leaves the
others intact; the in-memory mark_stopped sets only the status to stopped,
independently of the reason.  The marked status is terminal, but stopped_at
non-null iff terminal does not hold store-wide (a failed row keeps a null
stopped_at). -/
theorem mark_stopped_amended (db : SandboxDB) (now : Int) (id reason : String)
    (st : InMemorySandboxStore) (s : SandboxResponse) (r : SandboxRow)
    (hr : r ∈ db) (hget : st.get id = some s) :
    (r.sandbox_id = id →
       { r with status := "stopped", stopped_at := some now, stop_reason := some reason }
         ∈ (PostgresSandboxStore.mark_stopped db now id reason).1) ∧
    (r.sandbox_id ≠ id → r ∈ (PostgresSandboxStore.mark_stopped db now id reason).1) ∧
    ((st.mark_stopped id reason).2 = true ∧
     (st.mark_stopped id reason).1.get id = some { s with status := .stopped }) ∧
    (∀ reason2, (st.mark_stopped id reason).1 = (st.mark_stopped id reason2).1) ∧
    isTerminalStr "stopped" = true := by
  refine ⟨?_, ?_, ⟨?_, ?_⟩, ?_, rfl⟩
  · intro hid
    have hmem := List.mem_map_of_mem
      (fun r' : SandboxRow =>
        if r'.sandbox_id == id then
          { r' with status := "stopped", stopped_at := some now, stop_reason := some reason }
        else r') hr
    simpa [PostgresSandboxStore.mark_stopped, hid] using hmem
  · intro hid
    have hmem := List.mem_map_of_mem
      (fun r' : SandboxRow =>
        if r'.sandbox_id == id then
          { r' with status := "stopped", stopped_at := some now, stop_reason := some reason }
        else r') hr
    simpa [PostgresSandboxStore.mark_stopped, hid] using hmem
  · simp [InMemorySandboxStore.mark_stopped, hget]
  · simp [InMemorySandboxStore.mark_stopped, hget, get_dictInsert]
  · intro reason2
    simp [InMemorySandboxStore.mark_stopped, hget]

/-- Row used by the C7 witness. -/
def c7wRow : SandboxRow :=
  { sandbox_id := "sbx-00c7000000ab", user_id := "u7", status := "ready", created_at := 0 }

/-- Record used by the C7 witness. -/
def c7wRec : SandboxResponse :=
  { sandbox_id := "sbx-00c7000000ab", user_id := "u7", status := .ready, created_at := 0 }

/-- Witness for the amended C7 at a concrete table and store. -/
theorem mark_stopped_amended_witness :
    (c7wRow ∈ [c7wRow] ∧
     InMemorySandboxStore.get ⟨[("sbx-00c7000000ab", c7wRec)]⟩ "sbx-00c7000000ab"
        = some c7wRec) ∧
    ((c7wRow.sandbox_id = "sbx-00c7000000ab" →
        { c7wRow with status := "stopped", stopped_at := some 7,
                      stop_reason := some "expired" }
          ∈ (PostgresSandboxStore.mark_stopped [c7wRow] 7 "sbx-00c7000000ab" "expired").1) ∧
     (c7wRow.sandbox_id ≠ "sbx-00c7000000ab" →
        c7wRow ∈ (PostgresSandboxStore.mark_stopped [c7wRow] 7 "sbx-00c7000000ab" "expired").1) ∧
     ((InMemorySandboxStore.mark_stopped ⟨[("sbx-00c7000000ab", c7wRec)]⟩
          "sbx-00c7000000ab" "expired").2 = true ∧
      (InMemorySandboxStore.mark_stopped ⟨[("sbx-00c7000000ab", c7wRec)]⟩
          "sbx-00c7000000ab" "expired").1.get "sbx-00c7000000ab"
        = some { c7wRec with status := .stopped }) ∧
     (∀ reason2,
        (InMemorySandboxStore.mark_stopped ⟨[("sbx-00c7000000ab", c7wRec)]⟩
            "sbx-00c7000000ab" "expired").1
          = (InMemorySandboxStore.mark_stopped ⟨[("sbx-00c7000000ab", c7wRec)]⟩
            "sbx-00c7000000ab" reason2).1) ∧
     isTerminalStr "stopped" = true) :=
  ⟨⟨by decide, by decide⟩,
    mark_stopped_amended [c7wRow] 7 "sbx-00c7000000ab" "expired"
      ⟨[("sbx-00c7000000ab", c7wRec)]⟩ c7wRec c7wRow (by decide) (by decide)⟩

/-- Row used by the C8 counterexample: status starting, already past expiry. -/
def c8xRow : SandboxRow :=
  { sandbox_id := "sbx-00c8000000ax", user_id := "u8", status := "starting",
    created_at := 0, expires_at := some (-1) }

/-- C8 counterexample: a non-terminal record in status starting whose
expires_at is in the past is not selected by the expirer — the table is
unchanged and no id is returned — refuting that every non-terminal record
past expiry is expired. -/
theorem expire_stale_cex :
    isTerminalStr c8xRow.status = false ∧
    c8xRow.expires_at = some (-1) ∧ ((-1 : Int) < 0) ∧
    PostgresSandboxStore.expire_stale [c8xRow] 0 = ([c8xRow], []) := by
  decide

/-- C8 (amended): the expirer selects exactly the records whose status is
ready or running (not every non-terminal status) with a non-null expires_at
in the past; it updates each selected row to expired with stopped_at = now
and stop_reason expired, leaves unselected rows intact, and every returned
id comes from a selected row. -/
theorem expire_stale_amended (db : SandboxDB) (now : Int) (r : SandboxRow) (hr : r ∈ db) :
    (PostgresSandboxStore.expireSel now r = true →
       { r with status := "expired", stopped_at := some now, stop_reason := some "expired" }
         ∈ (PostgresSandboxStore.expire_stale db now).1 ∧
       r.sandbox_id ∈ (PostgresSandboxStore.expire_stale db now).2) ∧
    (PostgresSandboxStore.expireSel now r = false →
       r ∈ (PostgresSandboxStore.expire_stale db now).1) ∧
    (∀ x, x ∈ (PostgresSandboxStore.expire_stale db now).2 →
       ∃ r2, r2 ∈ db ∧ PostgresSandboxStore.expireSel now r2 = true ∧ r2.sandbox_id = x) ∧
    (PostgresSandboxStore.expireSel now r = true ↔
       ((r.status = "ready" ∨ r.status = "running") ∧
        ∃ e, r.expires_at = some e ∧ e < now)) := by
  refine ⟨?_, ?_, ?_, ?_⟩
  · intro hsel
    constructor
    · have hmem := List.mem_map_of_mem
        (fun r' : SandboxRow =>
          if PostgresSandboxStore.expireSel now r' then
            { r' with status := "expired", stopped_at := some now,
                      stop_reason := some "expired" }
          else r') hr
      simpa [PostgresSandboxStore.expire_stale, hsel] using hmem
    · have hf : r ∈ db.filter (PostgresSandboxStore.expireSel now) :=
        List.mem_filter.mpr ⟨hr, hsel⟩
      have hmem := List.mem_map_of_mem (fun r' : SandboxRow => r'.sandbox_id) hf
      simpa [PostgresSandboxStore.expire_stale] using hmem
  · intro hsel
    have hmem := List.mem_map_of_mem
      (fun r' : SandboxRow =>
        if PostgresSandboxStore.expireSel now r' then
          { r' with status := "expired", stopped_at := some now,
                    stop_reason := some "expired" }
        else r') hr
    simpa [PostgresSandboxStore.expire_stale, hsel] using hmem
  · intro x hx
    simp only [PostgresSandboxStore.expire_stale, List.mem_map, List.mem_filter] at hx
    obtain ⟨a, ⟨ha, hsel⟩, hax⟩ := hx
    exact ⟨a, ha, hsel, hax⟩
  · constructor
    · intro hsel
      unfold PostgresSandboxStore.expireSel at hsel
      cases hexp : r.expires_at with
      | none => rw [hexp] at hsel; simp at hsel
      | some e =>
        rw [hexp] at hsel
        simp only [Bool.and_eq_true, Bool.or_eq_true, beq_iff_eq, decide_eq_true_eq] at hsel
        exact ⟨hsel.1, e, rfl, hsel.2⟩
    · rintro ⟨hst, e, hexp, he⟩
      unfold PostgresSandboxStore.expireSel
      rw [hexp]
      rcases hst with h | h <;> simp [h, he]

/-- Selected row used by the C8 witness. -/
def c8wRow : SandboxRow :=
  { sandbox_id := "sbx-00c8000000ab", user_id := "u8", status := "ready",
    created_at := 0, expires_at := some (-1) }

/-- Witness for the amended C8: a ready row past its expiry is expired. -/
theorem expire_stale_amended_witness :
    (c8wRow ∈ [c8wRow] ∧ PostgresSandboxStore.expireSel 0 c8wRow = true) ∧
    ({ c8wRow with status := "expired", stopped_at := some 0,
                   stop_reason := some "expired" }
       ∈ (PostgresSandboxStore.expire_stale [c8wRow] 0).1 ∧
     c8wRow.sandbox_id ∈ (PostgresSandboxStore.expire_stale [c8wRow] 0).2) :=
  ⟨⟨by decide, by decide⟩,
    (expire_stale_amended [c8wRow] 0 c8wRow (by decide)).1 (by decide)⟩

/-- Parsing the stored status text recovers the status. -/
theorem ofString_value (st : SandboxStatus) : SandboxStatus.ofString st.value = some st := by
  cases st <;> rfl

/-- find? over an appended singleton when no earlier element matches. -/
theorem find_append_singleton {α : Type} (l : List α) (p : α → Bool) (x : α)
    (h : ∀ a ∈ l, p a = false) (hx : p x = true) :
    (l ++ [x]).find? p = some x := by
  induction l with
  | nil => simp [List.find?, hx]
  | cons a t ih =>
    have ha := h a (by simp)
    simp only [List.cons_append, List.find?, ha]
    exact ih (fun b hb => h b (by simp [hb]))

/-- Saving a record with a fresh id to the Postgres store and reading it back
yields the record with ssh_port reset to none: the INSERT has no ssh_port
column and _row_to_sandbox never fills the field. -/
theorem pg_save_get_fresh (db : SandboxDB) (now : Int) (s : SandboxResponse)
    (hfresh : ∀ r ∈ db, r.sandbox_id ≠ s.sandbox_id) :
    PostgresSandboxStore.get (PostgresSandboxStore.save db now s) s.sandbox_id
      = some { s with ssh_port := none } := by
  have hany : db.any (fun r => r.sandbox_id == s.sandbox_id) = false := by
    rw [List.any_eq_false]
    intro r hrr
    simpa using hfresh r hrr
  unfold PostgresSandboxStore.save
  rw [if_neg (by simp [hany])]
  unfold PostgresSandboxStore.get
  rw [find_append_singleton db _ _
    (fun a ha => by simpa using hfresh a ha) (by simp)]
  simp [rowToSandbox, ofString_value]

/-- Record used by the C9 counterexample: it carries an ssh_port. -/
def c9xRec : SandboxResponse :=
  { sandbox_id := "sbx-00c9000000ax", user_id := "55555555-5555-5555-5555-555555555555",
    status := .ready, container_id := some "c9cafe", created_at := 0,
    config := [("s3_bucket", "b")], ssh_port := some 2222 }

/-- C9 counterexample: saving a record with ssh_port 2222 to the Postgres
store and reading it back yields a record whose ssh_port is none, not an
equal record. -/
theorem pg_roundtrip_cex :
    PostgresSandboxStore.get (PostgresSandboxStore.save [] 0 c9xRec) "sbx-00c9000000ax"
      = some { c9xRec with ssh_port := none } ∧
    PostgresSandboxStore.get (PostgresSandboxStore.save [] 0 c9xRec) "sbx-00c9000000ax"
      ≠ some c9xRec := by
  decide

/-- C9 (amended): the in-memory store round-trips save then get to an equal
record; the Postgres store round-trips every persisted column for a fresh
id, but ssh_port is not persisted and comes back none. -/
theorem save_get_roundtrip_amended (st : InMemorySandboxStore) (s : SandboxResponse)
    (db : SandboxDB) (now : Int)
    (hfresh : ∀ r ∈ db, r.sandbox_id ≠ s.sandbox_id) :
    (st.save s).get s.sandbox_id = some s ∧
    PostgresSandboxStore.get (PostgresSandboxStore.save db now s) s.sandbox_id
      = some { s with ssh_port := none } :=
  ⟨get_save st s, pg_save_get_fresh db now s hfresh⟩

/-- Record used by the C9 witness. -/
def c9wRec : SandboxResponse :=
  { sandbox_id := "sbx-00c9000000ab", user_id := "55555555-5555-5555-5555-555555555555",
    status := .starting, container_id := some "c9beef", created_at := 3,
    config := [("s3_region", "us-east-1")], ssh_port := some 32768 }

/-- Witness for the amended C9 at a concrete record and empty stores. -/
theorem save_get_roundtrip_amended_witness :
    (∀ r ∈ ([] : SandboxDB), r.sandbox_id ≠ c9wRec.sandbox_id) ∧
    ((InMemorySandboxStore.save ⟨[]⟩ c9wRec).get c9wRec.sandbox_id = some c9wRec ∧
     PostgresSandboxStore.get (PostgresSandboxStore.save [] 3 c9wRec) c9wRec.sandbox_id
       = some { c9wRec with ssh_port := none }) :=
  ⟨fun r hr => absurd hr (List.not_mem_nil r),
    save_get_roundtrip_amended ⟨[]⟩ c9wRec [] 3 (fun r hr => absurd hr (List.not_mem_nil r))⟩

/-- C10: when the configured API key is empty, the middleware forwards every
request without checking credentials — the decision is forward for every
request, hence identical for any two requests that differ only in their
X-API-Key or Authorization headers, and no 401 or 403 is produced. -/
theorem auth_disabled_forwards (cfg : AuthSettings) (h : cfg.api_key = "") :
    (∀ req, dispatch cfg req = .forward) ∧
    (∀ r1 r2 : HttpRequest, r1.path = r2.path → dispatch cfg r1 = dispatch cfg r2) := by
  constructor
  · intro req
    simp [dispatch, h]
  · intro r1 r2 _
    simp [dispatch, h]

/-- Settings used by the C10 witness: dev mode with an empty API key. -/
def c10cfg : AuthSettings := { api_key := "", api_key_header := "X-API-Key" }

/-- Witness for C10: with an empty configured key, a request with a wrong
X-API-Key and a request with a different Authorization header are both
forwarded, and their decisions agree. -/
theorem auth_disabled_forwards_witness :
    c10cfg.api_key = "" ∧
    dispatch c10cfg { path := "/sandboxes", headers := [("X-API-Key", "wrong")] }
      = .forward ∧
    dispatch c10cfg { path := "/sandboxes", headers := [("Authorization", "Bearer zzz")] }
      = .forward ∧
    dispatch c10cfg { path := "/sandboxes", headers := [("X-API-Key", "wrong")] }
      = dispatch c10cfg { path := "/sandboxes", headers := [("Authorization", "Bearer zzz")] } :=
  ⟨rfl,
    (auth_disabled_forwards c10cfg rfl).1 _,
    (auth_disabled_forwards c10cfg rfl).1 _,
    (auth_disabled_forwards c10cfg rfl).2 _ _ rfl⟩
